import Mathlib

/-!
Formal model of the computational core of ESMBenchmarkViz: the portrait-plot
data shaper and record-emission loop (`core_portrait_plot.py`), the Taylor
diagram RMSE and reference-arc geometry (`core_taylor_diagram.py`), the
scatter-plot and Taylor-diagram input validation, and the colormap sampler
(`support_functions.py`).  Numeric data is modelled with `ℚ` where the Python
code only moves values around, and with `ℝ` where it computes with
square roots and trigonometry.  Fallible Python code (`raise`, `sys.exit`,
division by zero) is modelled with `Except String`.
-/

namespace ESMBench

/-! ## Colormap sampling (`support_functions.get_bokeh_colors_from_cmap`) -/

/-- Python true division: raises `ZeroDivisionError` on a zero denominator. -/
def pythonDiv (a b : ℚ) : Except String ℚ :=
  if b = 0 then Except.error "ZeroDivisionError: division by zero"
  else Except.ok (a / b)

/-- Model of `get_bokeh_colors_from_cmap(cmap_name, num_colors)`.  The
matplotlib colormap looked up from `cmap_name` is abstracted as a function
`cmap : ℚ → String` from a sample position to a hex color string.  The body
guards `num_colors < 1` with a `ValueError` and then evaluates
`cmap(i / (num_colors - 1))` for `i in range(num_colors)`. -/
def get_bokeh_colors_from_cmap (cmap : ℚ → String) (num_colors : ℤ) :
    Except String (List String) :=
  if num_colors < 1 then Except.error "ValueError: num_colors must be at least 1"
  else (List.range num_colors.toNat).mapM fun i =>
    (pythonDiv (i : ℚ) ((num_colors : ℚ) - 1)).map cmap

/-! ## Input validation of `scatter_plot` and `taylor_diagram` -/

/-- Model of the sanity checks at the top of `scatter_plot` (lines 47-53 of
`core_scatter_plot.py`), before any figure object is built. -/
def scatter_plot_check (x y : List ℚ) (names : List String)
    (images : Option (List String)) : Except String Unit :=
  if x.length ≠ y.length ∨ x.length ≠ names.length then
    Except.error "Length of x, y, and names should be the same."
  else
    match images with
    | some imgs =>
        if x.length ≠ imgs.length then
          Except.error "Length of x, y, and images should be the same."
        else Except.ok ()
    | none => Except.ok ()

/-- Model of the sanity checks at the top of `taylor_diagram` (lines 122-136
of `core_taylor_diagram.py`), before any figure object is built. -/
def taylor_diagram_check (std_devs correlations : List ℚ) (names : List String)
    (images : Option (List String)) : Except String Unit :=
  if std_devs.length ≠ correlations.length ∨ std_devs.length ≠ names.length
      ∨ correlations.length ≠ names.length then
    Except.error "The lengths of \x27std_devs\x27, \x27correlations\x27, and \x27names\x27 must be equal."
  else
    match images with
    | some imgs =>
        if std_devs.length ≠ imgs.length then
          Except.error "The lengths of \x27std_devs\x27, \x27correlations\x27, \x27names\x27, and \x27images\x27 must be equal."
        else Except.ok ()
    | none => Except.ok ()

/-! ## Portrait-plot data shaping (`core_portrait_plot.py`)

A numpy array handed to `prepare_data` is 2-D or 3-D (any other
dimensionality cannot arise from the plotting entry points modelled here, and
the `sys.exit` branch for it is unreachable in this representation).  An
array of shape `(R, C)` or `(D, R, C)` is modelled by its dimensions together
with a total entry function. -/

inductive NdArray where
  | a2 (R C : ℕ) (f : ℕ → ℕ → ℚ)
  | a3 (D R C : ℕ) (f : ℕ → ℕ → ℕ → ℚ)

/-- Python `data.shape[-1]`. -/
def NdArray.lastDim : NdArray → ℕ
  | .a2 _ C _ => C
  | .a3 _ _ C _ => C

/-- Python `data.shape[-2]`. -/
def NdArray.sndLastDim : NdArray → ℕ
  | .a2 R _ _ => R
  | .a3 _ R _ _ => R

/-- The division count `prepare_data` infers: `1` for a 2-D array and
`data.shape[0]` for a 3-D array. -/
def NdArray.num_divide : NdArray → ℕ
  | .a2 _ _ _ => 1
  | .a3 D _ _ _ => D

/-- Model of `prepare_data(data, xaxis_labels, yaxis_labels)` on an ndarray
input (lines 541-562 of `core_portrait_plot.py`): each label-count check is
applied only when that label list is non-empty, and `sys.exit` is modelled as
an `Except.error`. -/
def prepare_data (data : NdArray) (xaxis_labels yaxis_labels : List String) :
    Except String (NdArray × ℕ) :=
  if data.lastDim ≠ xaxis_labels.length ∧ 0 < xaxis_labels.length then
    Except.error "Error: Number of elements in xaxis_label mismatchs to the data"
  else if data.sndLastDim ≠ yaxis_labels.length ∧ 0 < yaxis_labels.length then
    Except.error "Error: Number of elements in yaxis_label mismatchs to the data"
  else
    Except.ok (data, data.num_divide)

/-- One flat cell record appended by the record-emission loop of
`portrait_plot` (lines 219-233): polygon coordinates offset by grid position,
the scalar value, and the row and column labels. -/
structure CellRec where
  xs : List ℚ
  ys : List ℚ
  field : ℚ
  xname : String
  yname : String
deriving DecidableEq

/-- The records emitted for one division: the double loop over `iy` and `ix`.
When `invert` is set the data slice has been flipped upside down first
(`np.flipud`), so row `iy` reads entry `R - 1 - iy` of the original slice.
Label indexing is total here via `List.getD`; under the in-range hypotheses
used below it agrees with Python's partial indexing. -/
def division_cells (R C : ℕ) (g : ℕ → ℕ → ℚ) (xpts ypts : List ℚ)
    (xl yl : List String) (invert : Bool) : List CellRec :=
  (List.range R).flatMap fun (iy : ℕ) =>
    (List.range C).map fun (ix : ℕ) =>
      { xs := xpts.map fun t => t + (ix : ℚ)
        ys := ypts.map fun t => t + (iy : ℚ)
        field := if invert then g (R - 1 - iy) ix else g iy ix
        xname := xl.getD ix ""
        yname := yl.getD iy ""
        : CellRec }

/-- The record-emission loop of `portrait_plot` (lines 195-233): iterates the
division index over `range num_divide`, and on each iteration accepts only
(`num_divide > 1` with a 3-D array) or (`num_divide == 1` with a 2-D array),
exiting fatally otherwise. -/
def emit_loop (d : NdArray) (nd : ℕ) (xl yl : List String)
    (xpl ypl : List (List ℚ)) (invert : Bool) :
    List ℕ → List CellRec → Except String (List CellRec)
  | [], acc => Except.ok acc
  | i :: rest, acc =>
    match d with
    | NdArray.a3 _ R C f =>
        if 1 < nd then
          emit_loop d nd xl yl xpl ypl invert rest
            (acc ++ division_cells R C (f i) (xpl.getD i []) (ypl.getD i []) xl yl invert)
        else Except.error "Error: data.shape is not right"
    | NdArray.a2 R C f =>
        if nd = 1 then
          emit_loop d nd xl yl xpl ypl invert rest
            (acc ++ division_cells R C f (xpl.getD i []) (ypl.getD i []) xl yl invert)
        else Except.error "Error: data.shape is not right"

/-- `portrait_plot` up to and including its record-emission loop: shape the
data, then emit one record per (division, row, column).  The polygon
coordinate lists `xpl`, `ypl` are the ones computed before the loop
(`get_x_y_points` or `get_glyph_row_points`). -/
def portrait_plot_cells (data : NdArray) (xl yl : List String)
    (xpl ypl : List (List ℚ)) (invert : Bool) : Except String (List CellRec) :=
  match prepare_data data xl yl with
  | Except.error e => Except.error e
  | Except.ok (d, nd) => emit_loop d nd xl yl xpl ypl invert (List.range nd) []

/-! ## Taylor-diagram RMSE values (`core_taylor_diagram.py`, lines 165-169) -/

/-- The list comprehension computing an RMSE value per model by the law of
cosines: `np.sqrt(refstd**2 + rs**2 - 2 * refstd * rs * ts)` for
`rs, ts in zip(std_devs, correlations)`. -/
noncomputable def taylor_rmse_values (refstd : ℝ) (std_devs correlations : List ℝ) :
    List ℝ :=
  List.zipWith (fun rs ts => Real.sqrt (refstd ^ 2 + rs ^ 2 - 2 * refstd * rs * ts))
    std_devs correlations

/-! ## Taylor-diagram reference-arc geometry (`core_taylor_diagram.py`) -/

/-- Degrees-to-radians conversion, `np.deg2rad`. -/
noncomputable def deg2rad (d : ℝ) : ℝ := d * (Real.pi / 180)

/-- The two-argument arctangent, `math.atan2`. -/
noncomputable def atan2 (y x : ℝ) : ℝ :=
  if 0 < x then Real.arctan (y / x)
  else if x < 0 then
    (if 0 ≤ y then Real.arctan (y / x) + Real.pi else Real.arctan (y / x) - Real.pi)
  else if 0 < y then Real.pi / 2
  else if y < 0 then -(Real.pi / 2)
  else 0

/-- Model of `angle_with_x_axis(x1, y1, x2, y2)` (lines 474-516): the angle in
degrees, in `[0, 360)`, of the line from `(x1, y1)` to `(x2, y2)`, with the
vertical case handled before the `atan2` computation. -/
noncomputable def angle_with_x_axis (x1 y1 x2 y2 : ℝ) : ℝ :=
  if x2 = x1 then (if y1 < y2 then 90 else 270)
  else
    let a := atan2 (y2 - y1) (x2 - x1) * (180 / Real.pi)
    if a < 0 then a + 360 else a

/-- Model of `find_circle_y_axis_intersection(x1, y1, r)` (lines 439-471):
empty when the circle does not reach the y-axis, otherwise the two points
`(0, y1 ± sqrt(r² - x1²))`. -/
noncomputable def find_circle_y_axis_intersection (x1 y1 r : ℝ) : List (ℝ × ℝ) :=
  if r ^ 2 - x1 ^ 2 < 0 then []
  else [(0, y1 + Real.sqrt (r ^ 2 - x1 ^ 2)), (0, y1 - Real.sqrt (r ^ 2 - x1 ^ 2))]

/-- The end angle of the RMSE arc of radius `i` centered at `(refstd, 0)` in
`add_reference_arcs` (lines 640-660): it starts at the default `π` and is
updated, for each y-axis intersection point with positive `y`, to the angle
from the arc center to that point. -/
noncomputable def rmse_end_angle (refstd i : ℝ) : ℝ :=
  (find_circle_y_axis_intersection refstd 0 i).foldl
    (fun e p => if 0 < p.2 then deg2rad (angle_with_x_axis refstd 0 0 p.2) else e)
    Real.pi

/-- Distance between the two circle centers in `find_circle_intersection`. -/
noncomputable def center_distance (x1 y1 x2 y2 : ℝ) : ℝ :=
  Real.sqrt ((x2 - x1) ^ 2 + (y2 - y1) ^ 2)

/-- Model of `find_circle_intersection(x1, y1, r1, x2, y2, r2)` (lines
379-436): empty when the circles are too far apart or nested
(`d > r1 + r2` or `d < |r1 - r2|`), empty for identical circles
(`d == 0 and r1 == r2`), otherwise the two intersection points.
Python's `math.sqrt(abs(...))` is `Real.sqrt |...|`. -/
noncomputable def find_circle_intersection (x1 y1 r1 x2 y2 r2 : ℝ) : List (ℝ × ℝ) :=
  let d := center_distance x1 y1 x2 y2
  if r1 + r2 < d ∨ d < |r1 - r2| then []
  else if d = 0 ∧ r1 = r2 then []
  else
    let a := (r1 ^ 2 - r2 ^ 2 + d ^ 2) / (2 * d)
    let h := Real.sqrt |r1 ^ 2 - a ^ 2|
    let x3 := x1 + a * (x2 - x1) / d
    let y3 := y1 + a * (y2 - y1) / d
    [(x3 + h * (y2 - y1) / d, y3 - h * (x2 - x1) / d),
     (x3 - h * (y2 - y1) / d, y3 + h * (x2 - x1) / d)]

/-! ## Caller-visible effects of the `taylor_diagram` prelude (lines 142-163)

The prelude of `taylor_diagram` rebinds `names` to a deep copy and `std_devs`
and `correlations` to fresh numpy arrays (`convert_to_numpy_array` copies a
list; `np.append` and `/` return new arrays), so those caller objects are
never mutated.  With `show_reference` the reference entry is appended to the
local copies, while `images.append(...)` (guarded by the truthiness test
`if images:`) and `colormap.append("black")` (guarded by
`isinstance(colormap, list)`) mutate the caller's own objects in place. -/

/-- The `colormap` argument: a matplotlib colormap name or a list of colors. -/
inductive PyColormap where
  | name (s : String)
  | colors (l : List String)
deriving DecidableEq

/-- The caller-supplied arguments of `taylor_diagram` whose objects the
prelude can observe or mutate. -/
structure TaylorArgs where
  names : List String
  std_devs : List ℚ
  correlations : List ℚ
  images : Option (List String)
  colormap : PyColormap
deriving DecidableEq

/-- Result of the prelude: the caller's objects as the caller sees them after
the call, together with the function's local values. -/
structure TaylorPreludeResult where
  caller : TaylorArgs
  local_names : List String
  local_std_devs : List ℚ
  local_correlations : List ℚ
  local_refstd : ℚ
deriving DecidableEq

/-- Model of lines 142-163 of `taylor_diagram`: deep-copy of `names`,
normalization, and the `show_reference` block appending the reference entry. -/
def taylor_diagram_prelude (a : TaylorArgs) (show_reference : Bool)
    (reference_name reference_image : String) (normalize : Bool) (refstd : ℚ) :
    TaylorPreludeResult :=
  let names0 := a.names
  let std0 := a.std_devs
  let corr0 := a.correlations
  let std1 := if normalize then std0.map fun s => s / refstd else std0
  let refstd1 := if normalize then (1 : ℚ) else refstd
  if show_reference then
    { caller :=
        { a with
          images :=
            match a.images with
            | some l => if l = [] then some l else some (l ++ [reference_image])
            | none => none
          colormap :=
            match a.colormap with
            | PyColormap.colors l => PyColormap.colors (l ++ ["black"])
            | c => c }
      local_names := names0 ++ [reference_name]
      local_std_devs := std1 ++ [refstd1]
      local_correlations := corr0 ++ [1]
      local_refstd := refstd1 }
  else
    { caller := a
      local_names := names0
      local_std_devs := std1
      local_correlations := corr0
      local_refstd := refstd1 }

/-! ## Theorems -/

/-- C2: evaluation of `get_bokeh_colors_from_cmap` at the boundary inputs:
`num_colors = 1` passes the `num_colors < 1` guard but then crashes with a
`ZeroDivisionError` from the index computation `i / (num_colors - 1)`, for
every colormap; `num_colors = 0` raises the documented `ValueError`.  This
contradicts the claim (and the function's own docstring) that every
`num_colors >= 1` returns a color list and only `num_colors < 1` errors. -/
theorem get_bokeh_colors_num1_zero_division (cmap : ℚ → String) :
    get_bokeh_colors_from_cmap cmap 1 =
      Except.error "ZeroDivisionError: division by zero" ∧
    get_bokeh_colors_from_cmap cmap 0 =
      Except.error "ValueError: num_colors must be at least 1" := by
  constructor
  · unfold get_bokeh_colors_from_cmap
    rw [if_neg (by decide : ¬ (1 : ℤ) < 1)]
    have h0 : ((1 : ℤ) : ℚ) - 1 = 0 := by norm_num
    have h1 : (1 : ℤ).toNat = 1 := rfl
    have h2 : List.range 1 = [0] := rfl
    rw [h1, h2]
    simp [pythonDiv, h0, List.mapM, List.mapM.loop, Except.map]
  · unfold get_bokeh_colors_from_cmap
    rw [if_pos (by decide : (0 : ℤ) < 1)]

/-- C5: the scatter-plot and Taylor-diagram validation succeeds exactly when
the parallel arrays (including a supplied images list) have equal lengths,
and any disagreement is reported as a `ValueError` with a descriptive
message, before any figure state is constructed. -/
theorem parallel_length_validation (x y : List ℚ) (names : List String)
    (std_devs correlations : List ℚ) (names2 : List String)
    (images images2 : Option (List String)) :
    (scatter_plot_check x y names images = Except.ok () ↔
      (x.length = y.length ∧ x.length = names.length ∧
        ∀ l, images = some l → x.length = l.length)) ∧
    (x.length ≠ y.length ∨ x.length ≠ names.length →
      scatter_plot_check x y names images =
        Except.error "Length of x, y, and names should be the same.") ∧
    (taylor_diagram_check std_devs correlations names2 images2 = Except.ok () ↔
      (std_devs.length = correlations.length ∧ std_devs.length = names2.length ∧
        ∀ l, images2 = some l → std_devs.length = l.length)) ∧
    (std_devs.length ≠ correlations.length ∨ std_devs.length ≠ names2.length ∨
        correlations.length ≠ names2.length →
      taylor_diagram_check std_devs correlations names2 images2 =
        Except.error "The lengths of \x27std_devs\x27, \x27correlations\x27, and \x27names\x27 must be equal.") := by
  refine ⟨?_, ?_, ?_, ?_⟩
  · unfold scatter_plot_check
    cases images <;> split_ifs <;> simp_all <;> omega
  · intro hmm
    unfold scatter_plot_check
    rw [if_pos hmm]
  · unfold taylor_diagram_check
    cases images2 <;> split_ifs <;> simp_all <;> omega
  · intro hmm
    unfold taylor_diagram_check
    rw [if_pos hmm]

/-- C5 witness: concrete applications of `parallel_length_validation`:
matched lengths validate, a mismatch yields the error. -/
theorem parallel_length_validation_witness :
    scatter_plot_check [1, 2] [3, 4] ["a", "b"] none = Except.ok () ∧
    taylor_diagram_check [1] [1] ["a", "b"] none =
      Except.error "The lengths of \x27std_devs\x27, \x27correlations\x27, and \x27names\x27 must be equal." := by
  constructor
  · exact (parallel_length_validation [1, 2] [3, 4] ["a", "b"] [] [] [] none none).1.mpr
      ⟨rfl, rfl, by intro l hl; cases hl⟩
  · exact (parallel_length_validation [] [] [] [1] [1] ["a", "b"] none none).2.2.2
      (Or.inr (Or.inl (by simp)))

/-- C6: the label-count checks of `prepare_data`: a non-empty column-label
list whose length differs from the last axis, or a non-empty row-label list
whose length differs from the second-to-last axis, halts fatally; an empty
label list skips its check, and when both checks pass the data and division
count are returned. -/
theorem prepare_data_label_checks (d : NdArray) (xl yl : List String) :
    (xl ≠ [] → d.lastDim ≠ xl.length →
      prepare_data d xl yl =
        Except.error "Error: Number of elements in xaxis_label mismatchs to the data") ∧
    ((xl = [] ∨ d.lastDim = xl.length) → yl ≠ [] → d.sndLastDim ≠ yl.length →
      prepare_data d xl yl =
        Except.error "Error: Number of elements in yaxis_label mismatchs to the data") ∧
    ((xl = [] ∨ d.lastDim = xl.length) → (yl = [] ∨ d.sndLastDim = yl.length) →
      prepare_data d xl yl = Except.ok (d, d.num_divide)) := by
  have hx : ∀ hx1 : xl = [] ∨ d.lastDim = xl.length,
      ¬(d.lastDim ≠ xl.length ∧ 0 < xl.length) := by
    rintro (h | h) <;> simp [h]
  refine ⟨fun h1 h2 => ?_, fun h1 h2 h3 => ?_, fun h1 h2 => ?_⟩
  · unfold prepare_data
    rw [if_pos ⟨h2, List.length_pos.mpr h1⟩]
  · unfold prepare_data
    rw [if_neg (hx h1), if_pos ⟨h3, List.length_pos.mpr h2⟩]
  · unfold prepare_data
    rw [if_neg (hx h1), if_neg]
    rcases h2 with h | h <;> simp [h]

/-- C6 witness: a 2-column array with 3 column labels fails fatally, and
empty labels skip the checks. -/
theorem prepare_data_label_checks_witness :
    prepare_data (NdArray.a2 2 2 fun _ _ => 0) ["A", "B", "C"] ["C", "D"] =
      Except.error "Error: Number of elements in xaxis_label mismatchs to the data" ∧
    prepare_data (NdArray.a2 2 2 fun _ _ => 0) [] [] =
      Except.ok (NdArray.a2 2 2 fun _ _ => 0, 1) := by
  constructor
  · exact (prepare_data_label_checks (NdArray.a2 2 2 fun _ _ => 0) ["A", "B", "C"]
      ["C", "D"]).1 (by simp) (by decide)
  · exact (prepare_data_label_checks (NdArray.a2 2 2 fun _ _ => 0) [] []).2.2
      (Or.inl rfl) (Or.inl rfl)

/-- Helper: summing a constant over a list. -/
theorem sum_map_const {α : Type} (l : List α) (c : ℕ) :
    (l.map fun _ => c).sum = l.length * c := by
  induction l with
  | nil => simp
  | cons a l ih => simp [ih, Nat.succ_mul, Nat.add_comm]

/-- Helper: the number of records one division emits. -/
theorem length_division_cells (R C : ℕ) (g : ℕ → ℕ → ℚ) (xpts ypts : List ℚ)
    (xl yl : List String) (invert : Bool) :
    (division_cells R C g xpts ypts xl yl invert).length = R * C := by
  unfold division_cells
  rw [List.length_flatMap]
  simp only [Function.comp_def, List.length_map, List.length_range]
  rw [sum_map_const, List.length_range]

/-- Helper: membership in the records of one division. -/
theorem mem_division_cells (R C : ℕ) (g : ℕ → ℕ → ℚ) (xpts ypts : List ℚ)
    (xl yl : List String) (invert : Bool) (rec : CellRec) :
    rec ∈ division_cells R C g xpts ypts xl yl invert ↔
      ∃ iy ix, iy < R ∧ ix < C ∧
        rec = { xs := xpts.map fun t => t + (ix : ℚ)
                ys := ypts.map fun t => t + (iy : ℚ)
                field := if invert then g (R - 1 - iy) ix else g iy ix
                xname := xl.getD ix ""
                yname := yl.getD iy "" } := by
  simp only [division_cells, List.mem_flatMap, List.mem_map, List.mem_range]
  constructor
  · rintro ⟨iy, hiy, ix, hix, hrec⟩
    exact ⟨iy, ix, hiy, hix, hrec.symm⟩
  · rintro ⟨iy, ix, hiy, hix, hrec⟩
    exact ⟨iy, hiy, ix, hix, hrec.symm⟩

/-- Helper: the emission loop on a 3-D array with `num_divide > 1` appends
the records of each division in order. -/
theorem emit_loop_a3_ok (D R C : ℕ) (f : ℕ → ℕ → ℕ → ℚ) (nd : ℕ) (h : 1 < nd)
    (xl yl : List String) (xpl ypl : List (List ℚ)) (invert : Bool) :
    ∀ (l : List ℕ) (acc : List CellRec),
      emit_loop (NdArray.a3 D R C f) nd xl yl xpl ypl invert l acc =
        Except.ok (acc ++ l.flatMap fun i =>
          division_cells R C (f i) (xpl.getD i []) (ypl.getD i []) xl yl invert)
  | [], acc => by simp [emit_loop]
  | i :: l, acc => by
      simp only [emit_loop, if_pos h]
      rw [emit_loop_a3_ok D R C f nd h xl yl xpl ypl invert l]
      simp [List.flatMap_cons, List.append_assoc]

/-- Helper: the emission loop on a 2-D array with `num_divide = 1`. -/
theorem emit_loop_a2_ok (R C : ℕ) (f : ℕ → ℕ → ℚ) (nd : ℕ) (h : nd = 1)
    (xl yl : List String) (xpl ypl : List (List ℚ)) (invert : Bool) :
    ∀ (l : List ℕ) (acc : List CellRec),
      emit_loop (NdArray.a2 R C f) nd xl yl xpl ypl invert l acc =
        Except.ok (acc ++ l.flatMap fun i =>
          division_cells R C f (xpl.getD i []) (ypl.getD i []) xl yl invert)
  | [], acc => by simp [emit_loop]
  | i :: l, acc => by
      simp only [emit_loop, if_pos h]
      rw [emit_loop_a2_ok R C f nd h xl yl xpl ypl invert l]
      simp [List.flatMap_cons, List.append_assoc]

/-- C4 counterexample: a single stacked array of shape `(1, 2, 2)` with two
row labels and two column labels is resolved by the data shaper to `D = 1`
divisions over a 2-by-2 grid, yet the record-emission loop exits fatally and
emits no cell records at all, instead of the claimed `1 * 2 * 2 = 4`. -/
theorem portrait_cells_shape_1RC_counterexample :
    prepare_data (NdArray.a3 1 2 2 fun _ _ _ => 0) ["A", "B"] ["C", "D"] =
      Except.ok (NdArray.a3 1 2 2 fun _ _ _ => 0, 1) ∧
    portrait_plot_cells (NdArray.a3 1 2 2 fun _ _ _ => 0) ["A", "B"] ["C", "D"]
        [[0, 0, 1, 1]] [[1, 0, 0, 1]] true =
      Except.error "Error: data.shape is not right" := by
  constructor <;> rfl

/-- C4 (amended): for inputs of compatible dimensionality — a 3-D stacked
array with `D ≥ 2` divisions, or a 2-D array (one division) — with matching
labels, the record-emission loop of `portrait_plot` emits exactly `D * R * C`
cell records, one per (division, row, column) triple, each carrying its
polygon coordinates offset by grid position, its scalar value, and its row
and column labels. -/
theorem portrait_cells_count_and_content (D R C : ℕ) (f3 : ℕ → ℕ → ℕ → ℚ)
    (f2 : ℕ → ℕ → ℚ) (xl yl : List String) (xpl ypl : List (List ℚ)) (inv : Bool)
    (hx : xl.length = C) (hy : yl.length = R) (hD : 2 ≤ D) :
    (∃ cells,
      portrait_plot_cells (NdArray.a3 D R C f3) xl yl xpl ypl inv =
        Except.ok cells ∧
      cells.length = D * R * C ∧
      ∀ rec, rec ∈ cells ↔ ∃ i iy ix, i < D ∧ iy < R ∧ ix < C ∧
        rec = { xs := (xpl.getD i []).map fun t => t + (ix : ℚ)
                ys := (ypl.getD i []).map fun t => t + (iy : ℚ)
                field := if inv then f3 i (R - 1 - iy) ix else f3 i iy ix
                xname := xl.getD ix ""
                yname := yl.getD iy "" }) ∧
    (∃ cells,
      portrait_plot_cells (NdArray.a2 R C f2) xl yl xpl ypl inv =
        Except.ok cells ∧
      cells.length = 1 * R * C ∧
      ∀ rec, rec ∈ cells ↔ ∃ iy ix, iy < R ∧ ix < C ∧
        rec = { xs := (xpl.getD 0 []).map fun t => t + (ix : ℚ)
                ys := (ypl.getD 0 []).map fun t => t + (iy : ℚ)
                field := if inv then f2 (R - 1 - iy) ix else f2 iy ix
                xname := xl.getD ix ""
                yname := yl.getD iy "" }) := by
  constructor
  · refine ⟨(List.range D).flatMap fun i =>
      division_cells R C (f3 i) (xpl.getD i []) (ypl.getD i []) xl yl inv, ?_, ?_, ?_⟩
    · unfold portrait_plot_cells prepare_data
      rw [if_neg (by simp [NdArray.lastDim, hx]), if_neg (by simp [NdArray.sndLastDim, hy])]
      show emit_loop (NdArray.a3 D R C f3) D xl yl xpl ypl inv (List.range D) [] = _
      rw [emit_loop_a3_ok D R C f3 D (by omega) xl yl xpl ypl inv (List.range D) []]
      rw [List.nil_append]
    · rw [List.length_flatMap]
      have : ∀ i : ℕ,
          (division_cells R C (f3 i) (xpl.getD i []) (ypl.getD i []) xl yl inv).length
            = R * C := fun i => length_division_cells R C (f3 i) _ _ xl yl inv
      calc ((List.range D).map fun i =>
              (division_cells R C (f3 i) (xpl.getD i []) (ypl.getD i []) xl yl inv).length).sum
          = ((List.range D).map fun _ => R * C).sum := by
            simp only [this]
        _ = D * (R * C) := by rw [sum_map_const, List.length_range]
        _ = D * R * C := by ring
    · intro rec
      simp only [List.mem_flatMap, List.mem_range, mem_division_cells]
      constructor
      · rintro ⟨i, hi, iy, ix, hiy, hix, hrec⟩
        exact ⟨i, iy, ix, hi, hiy, hix, hrec⟩
      · rintro ⟨i, iy, ix, hi, hiy, hix, hrec⟩
        exact ⟨i, hi, iy, ix, hiy, hix, hrec⟩
  · refine ⟨division_cells R C f2 (xpl.getD 0 []) (ypl.getD 0 []) xl yl inv, ?_, ?_, ?_⟩
    · unfold portrait_plot_cells prepare_data
      rw [if_neg (by simp [NdArray.lastDim, hx]), if_neg (by simp [NdArray.sndLastDim, hy])]
      show emit_loop (NdArray.a2 R C f2) 1 xl yl xpl ypl inv (List.range 1) [] = _
      rw [emit_loop_a2_ok R C f2 1 rfl xl yl xpl ypl inv (List.range 1) []]
      have h1 : List.range 1 = [0] := rfl
      rw [h1]
      simp
    · rw [length_division_cells, Nat.one_mul]
    · intro rec
      exact mem_division_cells R C f2 _ _ xl yl inv rec

/-- C4 witness: a concrete single 2-by-2 array with two row labels and two
column labels yields exactly 4 cell records. -/
theorem portrait_cells_count_and_content_witness :
    (["A", "B"] : List String).length = 2 ∧ (["C", "D"] : List String).length = 2 ∧
    (2 : ℕ) ≤ 2 ∧
    ∃ cells, portrait_plot_cells (NdArray.a2 2 2 fun i j => (i : ℚ) + j)
        ["A", "B"] ["C", "D"] [[0, 0, 1, 1]] [[1, 0, 0, 1]] true =
        Except.ok cells ∧ cells.length = 1 * 2 * 2 := by
  refine ⟨rfl, rfl, le_refl 2, ?_⟩
  obtain ⟨cells, h1, h2, _⟩ :=
    (portrait_cells_count_and_content 2 2 2 (fun _ _ _ => 0) (fun i j => (i : ℚ) + j)
      ["A", "B"] ["C", "D"] [[0, 0, 1, 1]] [[1, 0, 0, 1]] true rfl rfl (le_refl 2)).2
  exact ⟨cells, h1, h2⟩

/-- C9: a 3-D array of shape `(1, R, C)` with matching (or empty) labels is
accepted by `prepare_data` with `num_divide = 1`, but the record-emission
loop of `portrait_plot` then exits fatally, since it accepts only
`num_divide > 1` with a 3-D array or `num_divide == 1` with a 2-D array. -/
theorem portrait_plot_shape_1RC_fatal (R C : ℕ) (f : ℕ → ℕ → ℕ → ℚ)
    (xl yl : List String) (xpl ypl : List (List ℚ)) (invert : Bool)
    (hx : xl = [] ∨ xl.length = C) (hy : yl = [] ∨ yl.length = R) :
    prepare_data (NdArray.a3 1 R C f) xl yl = Except.ok (NdArray.a3 1 R C f, 1) ∧
    portrait_plot_cells (NdArray.a3 1 R C f) xl yl xpl ypl invert =
      Except.error "Error: data.shape is not right" := by
  have hpd : prepare_data (NdArray.a3 1 R C f) xl yl =
      Except.ok (NdArray.a3 1 R C f, 1) := by
    unfold prepare_data
    rw [if_neg, if_neg]
    · rfl
    · rcases hy with h | h <;> simp [h, NdArray.sndLastDim]
    · rcases hx with h | h <;> simp [h, NdArray.lastDim]
  refine ⟨hpd, ?_⟩
  unfold portrait_plot_cells
  rw [hpd]
  show emit_loop (NdArray.a3 1 R C f) 1 xl yl xpl ypl invert (List.range 1) [] = _
  have h2 : List.range 1 = [0] := rfl
  rw [h2]
  simp [emit_loop]

/-- C9 witness: a concrete `(1, 2, 2)` array with matching labels reaches the
fatal branch. -/
theorem portrait_plot_shape_1RC_fatal_witness :
    portrait_plot_cells (NdArray.a3 1 2 2 fun _ i j => (i : ℚ) + j) ["A", "B"]
      ["C", "D"] [[0, 0, 1, 1]] [[1, 0, 0, 1]] true =
      Except.error "Error: data.shape is not right" :=
  (portrait_plot_shape_1RC_fatal 2 2 (fun _ i j => (i : ℚ) + j) ["A", "B"] ["C", "D"]
    [[0, 0, 1, 1]] [[1, 0, 0, 1]] true (Or.inr rfl) (Or.inr rfl)).2

/-- Helper: indexing a `zipWith`. -/
theorem getD_zipWith (f : ℝ → ℝ → ℝ) :
    ∀ (l1 l2 : List ℝ) (i : ℕ), i < l1.length → i < l2.length →
      (List.zipWith f l1 l2).getD i 0 = f (l1.getD i 0) (l2.getD i 0)
  | [], _, i, h1, _ => absurd h1 (by simp)
  | _ :: _, [], i, _, h2 => absurd h2 (by simp)
  | a :: l1, b :: l2, 0, _, _ => rfl
  | a :: l1, b :: l2, i + 1, h1, h2 => by
      simpa using getD_zipWith f l1 l2 i (by simpa using h1) (by simpa using h2)

/-- C3: the RMSE value computed for the entry at index `i` equals
`sqrt(refstd² + s² - 2·refstd·s·c)` for that entry's standard deviation `s`
and correlation `c`; in particular `s = 1, c = 1, refstd = 1` gives `0` and
`s = 1.2, c = 0.7, refstd = 1` gives `sqrt 0.76`. -/
theorem taylor_rmse_law_of_cosines :
    (∀ (refstd : ℝ) (std_devs correlations : List ℝ) (i : ℕ),
      i < std_devs.length → i < correlations.length →
      (taylor_rmse_values refstd std_devs correlations).getD i 0 =
        Real.sqrt (refstd ^ 2 + (std_devs.getD i 0) ^ 2 -
          2 * refstd * (std_devs.getD i 0) * (correlations.getD i 0))) ∧
    taylor_rmse_values 1 [1] [1] = [0] ∧
    taylor_rmse_values 1 [1.2] [0.7] = [Real.sqrt 0.76] := by
  refine ⟨fun refstd s c i h1 h2 => getD_zipWith _ s c i h1 h2, ?_, ?_⟩
  · unfold taylor_rmse_values
    rw [List.zipWith_cons_cons, List.zipWith_nil_right]
    norm_num
  · unfold taylor_rmse_values
    rw [List.zipWith_cons_cons, List.zipWith_nil_right]
    congr 1
    norm_num

/-- C3 witness: a concrete entry of the RMSE list. -/
theorem taylor_rmse_law_of_cosines_witness :
    (0 : ℕ) < ([2] : List ℝ).length ∧ (0 : ℕ) < ([0] : List ℝ).length ∧
    (taylor_rmse_values 1 [2] [0]).getD 0 0 =
      Real.sqrt (1 ^ 2 + (([2] : List ℝ).getD 0 0) ^ 2 -
        2 * 1 * (([2] : List ℝ).getD 0 0) * (([0] : List ℝ).getD 0 0)) :=
  ⟨by simp, by simp, taylor_rmse_law_of_cosines.1 1 [2] [0] 0 (by simp) (by simp)⟩

/-- C8: `find_circle_intersection` returns the empty list for identical
circles (equal centers and equal radii) rather than erroring or signaling
ambiguity, and also whenever the center distance exceeds `r1 + r2` or is
below `|r1 - r2|`. -/
theorem circle_intersection_degenerate_empty (x1 y1 r1 x2 y2 r2 : ℝ) :
    (r2 = r1 → find_circle_intersection x1 y1 r1 x1 y1 r2 = []) ∧
    (r1 + r2 < center_distance x1 y1 x2 y2 →
      find_circle_intersection x1 y1 r1 x2 y2 r2 = []) ∧
    (center_distance x1 y1 x2 y2 < |r1 - r2| →
      find_circle_intersection x1 y1 r1 x2 y2 r2 = []) := by
  refine ⟨fun hr => ?_, fun hd => ?_, fun hd => ?_⟩
  · rw [hr]
    have hd0 : center_distance x1 y1 x1 y1 = 0 := by
      simp [center_distance]
    unfold find_circle_intersection
    rw [hd0]
    by_cases hneg : r1 + r1 < 0
    · rw [if_pos (Or.inl hneg)]
    · rw [if_neg, if_pos ⟨rfl, rfl⟩]
      push_neg
      exact ⟨not_lt.mp hneg, by simp⟩
  · unfold find_circle_intersection
    rw [if_pos (Or.inl hd)]
  · unfold find_circle_intersection
    rw [if_pos (Or.inr hd)]

/-- C8 witness: concrete instances of the three empty cases: identical unit
circles at the origin, two unit circles 5 apart, and a unit circle strictly
inside a radius-3 circle. -/
theorem circle_intersection_degenerate_empty_witness :
    find_circle_intersection 0 0 1 0 0 1 = [] ∧
    (1 : ℝ) + 1 < center_distance 0 0 5 0 ∧
    find_circle_intersection 0 0 1 5 0 1 = [] ∧
    center_distance 0 0 1 0 < |(3 : ℝ) - 1| ∧
    find_circle_intersection 0 0 3 1 0 1 = [] := by
  have h5 : center_distance 0 0 5 0 = 5 := by
    unfold center_distance
    rw [show ((5 : ℝ) - 0) ^ 2 + (0 - 0) ^ 2 = 5 ^ 2 by norm_num]
    exact Real.sqrt_sq (by norm_num)
  have h1 : center_distance 0 0 1 0 = 1 := by
    unfold center_distance
    rw [show ((1 : ℝ) - 0) ^ 2 + (0 - 0) ^ 2 = 1 ^ 2 by norm_num]
    exact Real.sqrt_sq (by norm_num)
  refine ⟨(circle_intersection_degenerate_empty 0 0 1 0 0 1).1 rfl,
    by rw [h5]; norm_num,
    (circle_intersection_degenerate_empty 0 0 1 5 0 1).2.1 (by rw [h5]; norm_num),
    by rw [h1]; norm_num,
    (circle_intersection_degenerate_empty 0 0 3 1 0 1).2.2 (by rw [h1]; norm_num)⟩

/-- C7: for the RMSE arc of radius `i` centered at `(refstd, 0)`: when the
circle does not reach the y-axis (`i² - refstd² < 0`) the y-axis intersection
list is empty and the end angle keeps its default `π`; otherwise the end
angle equals the angle from the arc center to the y-axis intersection point
with non-negative `y`, `(0, sqrt(i² - refstd²))`. -/
theorem rmse_arc_end_angle_spec (refstd i : ℝ) (h : 0 < refstd) :
    (i ^ 2 - refstd ^ 2 < 0 →
      find_circle_y_axis_intersection refstd 0 i = [] ∧
      rmse_end_angle refstd i = Real.pi) ∧
    (0 ≤ i ^ 2 - refstd ^ 2 →
      rmse_end_angle refstd i =
        deg2rad (angle_with_x_axis refstd 0 0 (Real.sqrt (i ^ 2 - refstd ^ 2)))) := by
  constructor
  · intro hlt
    have hempty : find_circle_y_axis_intersection refstd 0 i = [] := by
      unfold find_circle_y_axis_intersection
      rw [if_pos hlt]
    refine ⟨hempty, ?_⟩
    unfold rmse_end_angle
    rw [hempty]
    rfl
  · intro hge
    have hs : 0 ≤ Real.sqrt (i ^ 2 - refstd ^ 2) := Real.sqrt_nonneg _
    have hpts : find_circle_y_axis_intersection refstd 0 i =
        [(0, 0 + Real.sqrt (i ^ 2 - refstd ^ 2)),
         (0, 0 - Real.sqrt (i ^ 2 - refstd ^ 2))] := by
      unfold find_circle_y_axis_intersection
      rw [if_neg (not_lt.mpr hge)]
    unfold rmse_end_angle
    rw [hpts]
    simp only [List.foldl_cons, List.foldl_nil, zero_add, zero_sub]
    rw [if_neg (by simp)]
    rcases eq_or_lt_of_le hs with hzero | hpos
    · rw [if_neg (by rw [← hzero]; exact lt_irrefl 0)]
      rw [← hzero]
      have hangle : angle_with_x_axis refstd 0 0 0 = 180 := by
        unfold angle_with_x_axis
        rw [if_neg (by exact fun hc => absurd hc.symm (ne_of_gt h))]
        have hat : atan2 (0 - 0) (0 - refstd) = Real.pi := by
          unfold atan2
          rw [if_neg (by simp; linarith), if_pos (by simp [h]), if_pos (by norm_num)]
          simp [Real.arctan_zero]
        simp only [hat]
        rw [if_neg]
        · rw [mul_comm, div_mul_cancel₀ _ Real.pi_ne_zero]
        · rw [mul_comm, div_mul_cancel₀ _ Real.pi_ne_zero]
          norm_num
      rw [hangle]
      unfold deg2rad
      rw [mul_comm, div_mul_cancel₀ _ (by norm_num : (180 : ℝ) ≠ 0)]
    · rw [if_pos hpos]

/-- C7 witness: for `refstd = 1` the radius-`1/2` RMSE arc does not reach the
y-axis and keeps the default end angle `π`, while the radius-`2` arc ends at
the computed y-axis crossing angle. -/
theorem rmse_arc_end_angle_spec_witness :
    (0 : ℝ) < 1 ∧
    rmse_end_angle 1 (1 / 2) = Real.pi ∧
    rmse_end_angle 1 2 =
      deg2rad (angle_with_x_axis 1 0 0 (Real.sqrt (2 ^ 2 - 1 ^ 2))) :=
  ⟨one_pos, ((rmse_arc_end_angle_spec 1 (1 / 2) one_pos).1 (by norm_num)).2,
    (rmse_arc_end_angle_spec 1 2 one_pos).2 (by norm_num)⟩

/-- C10 counterexample: with `show_reference = True` and a caller-supplied
empty `images` list (which is not `None`), the prelude of `taylor_diagram`
does not append `reference_image`, because the append is guarded by the
truthiness test `if images:` rather than an `is not None` test. -/
theorem taylor_mutation_counterexample :
    (taylor_diagram_prelude ⟨[], [], [], some [], PyColormap.name "Spectral"⟩
        true "Reference" "ref.png" false 1).caller.images = some [] ∧
    (taylor_diagram_prelude ⟨[], [], [], some [], PyColormap.name "Spectral"⟩
        true "Reference" "ref.png" false 1).caller.images ≠ some ["ref.png"] := by
  constructor
  · rfl
  · intro hc
    simp [taylor_diagram_prelude] at hc

/-- C10 (amended): with `show_reference = True` the prelude of
`taylor_diagram` leaves the caller's `names`, `std_devs` and `correlations`
unchanged (they are deep-copied or rebound to fresh arrays, and the local
`names` copy gets the reference appended), appends `reference_image` to the
caller's `images` list exactly when it is non-`None` and non-empty, and
appends `"black"` to the caller's `colormap` exactly when it is a list. -/
theorem taylor_prelude_mutation (a : TaylorArgs) (rn ri : String) (nrm : Bool)
    (refstd : ℚ) :
    (taylor_diagram_prelude a true rn ri nrm refstd).caller.names = a.names ∧
    (taylor_diagram_prelude a true rn ri nrm refstd).caller.std_devs = a.std_devs ∧
    (taylor_diagram_prelude a true rn ri nrm refstd).caller.correlations =
      a.correlations ∧
    (a.images = none →
      (taylor_diagram_prelude a true rn ri nrm refstd).caller.images = none) ∧
    (∀ l, a.images = some l → l ≠ [] →
      (taylor_diagram_prelude a true rn ri nrm refstd).caller.images =
        some (l ++ [ri])) ∧
    (a.images = some [] →
      (taylor_diagram_prelude a true rn ri nrm refstd).caller.images = some []) ∧
    (∀ l, a.colormap = PyColormap.colors l →
      (taylor_diagram_prelude a true rn ri nrm refstd).caller.colormap =
        PyColormap.colors (l ++ ["black"])) ∧
    (∀ s, a.colormap = PyColormap.name s →
      (taylor_diagram_prelude a true rn ri nrm refstd).caller.colormap =
        PyColormap.name s) ∧
    (taylor_diagram_prelude a true rn ri nrm refstd).local_names =
      a.names ++ [rn] := by
  unfold taylor_diagram_prelude
  refine ⟨rfl, rfl, rfl, ?_, ?_, ?_, ?_, ?_, rfl⟩
  · intro h; simp [h]
  · intro l hl hne; simp [hl, hne]
  · intro h; simp [h]
  · intro l hl; simp [hl]
  · intro s hs; simp [hs]

/-- C10 witness: a concrete call with a non-empty images list and a list
colormap: both get the reference entries appended, the names list seen by the
caller is unchanged while the local copy has the reference name. -/
theorem taylor_prelude_mutation_witness :
    (taylor_diagram_prelude ⟨["m1"], [2], [1], some ["a.png"], PyColormap.colors ["red"]⟩
        true "Reference" "ref.png" false 1).caller.images = some ["a.png", "ref.png"] ∧
    (taylor_diagram_prelude ⟨["m1"], [2], [1], some ["a.png"], PyColormap.colors ["red"]⟩
        true "Reference" "ref.png" false 1).caller.colormap =
      PyColormap.colors ["red", "black"] ∧
    (taylor_diagram_prelude ⟨["m1"], [2], [1], some ["a.png"], PyColormap.colors ["red"]⟩
        true "Reference" "ref.png" false 1).caller.names = ["m1"] ∧
    (taylor_diagram_prelude ⟨["m1"], [2], [1], some ["a.png"], PyColormap.colors ["red"]⟩
        true "Reference" "ref.png" false 1).local_names = ["m1", "Reference"] := by
  obtain ⟨h1, _, _, _, h5, _, h7, _, h9⟩ :=
    taylor_prelude_mutation ⟨["m1"], [2], [1], some ["a.png"], PyColormap.colors ["red"]⟩
      "Reference" "ref.png" false 1
  exact ⟨h5 ["a.png"] rfl (by simp), h7 ["red"] rfl, h1, h9⟩

end ESMBench
